import Mathlib

/-!
Verification of the seismic base-shear calculator (src/seismic_calculator.py).

The computational core of the program is:
  * the `Calculate` button handler of each code-year branch (lines 199-359),
    which reads the `st.number_input` fields of that branch and stores a
    result mapping in `st.session_state["numeric_result"]`;
  * the `Generate Distribution Graph` handler (lines 381-384), which takes
    the FIRST value of the result mapping as the total shear and builds the
    storey-wise list `[(i / storeys) * total_shear for i in range(1, storeys+1)]`.

Numbers are modelled as rationals `ℚ`.  Python's float division raises
`ZeroDivisionError` when the divisor is exactly zero (it does not return an
IEEE infinity), so division is modelled as a checked operation returning
`Except`.  Each `st.number_input(label, value=d)` field is modelled as a
lookup in the caller-supplied input list falling back to the declared
default `d` (0.0 for most fields, 1.0 for the importance factor I and the
response-reduction factor R where those appear).
-/

/-- The one arithmetic error the Calculate handlers can raise: Python's
`ZeroDivisionError` from `/` with a zero divisor. -/
inductive CalcError where
  | zeroDivision
deriving DecidableEq

/-- Python float division: `a / b` raises `ZeroDivisionError` when `b == 0`,
otherwise yields the exact quotient. -/
def pyDiv (a b : ℚ) : Except CalcError ℚ :=
  if b = 0 then .error .zeroDivision else .ok (a / b)

/-- The values the caller typed into the number fields, keyed by the short
variable name used in the source (`ah`, `W`, `C`, `beta`, `I`, `ao`, `K`,
`Z`, `R`, `Sa/g`, `A_NH`, `A_NV`).  A name that is absent keeps the field's
declared default. -/
abbrev InputSet := List (String × ℚ)

/-- The result mapping stored in `st.session_state["numeric_result"]`:
ordered (label, value) pairs, insertion-ordered like a Python dict. -/
abbrev ResultSet := List (String × ℚ)

/-- Models `st.number_input(label, value=default)`: the field is pre-filled
with `default`, and the caller's typed value (when present) replaces it. -/
def numberInput (inputs : InputSet) (name : String) (default : ℚ) : ℚ :=
  match inputs.lookup name with
  | some v => v
  | none => default

/-- Year 1962 branch (lines 199-212): `F = ah * W`. -/
def calc1962 (inputs : InputSet) : Except CalcError ResultSet :=
  let ah := numberInput inputs "ah" 0
  let W := numberInput inputs "W" 0
  .ok [("F (kN)", ah * W)]

/-- Year 1966 branch (lines 214-230): `Vb = C * ah * W`. -/
def calc1966 (inputs : InputSet) : Except CalcError ResultSet :=
  let C := numberInput inputs "C" 0
  let ah := numberInput inputs "ah" 0
  let W := numberInput inputs "W" 0
  .ok [("Vb (kN)", C * ah * W)]

/-- Year 1970 branch (lines 232-251): `Vb = C * ah * beta * W`. -/
def calc1970 (inputs : InputSet) : Except CalcError ResultSet :=
  let C := numberInput inputs "C" 0
  let ah := numberInput inputs "ah" 0
  let beta := numberInput inputs "beta" 0
  let W := numberInput inputs "W" 0
  .ok [("Vb (kN)", C * ah * beta * W)]

/-- Year 1975 branch (lines 253-275): `Vb = C * beta * I * ao * W`; the I field
defaults to 1.0. -/
def calc1975 (inputs : InputSet) : Except CalcError ResultSet :=
  let C := numberInput inputs "C" 0
  let beta := numberInput inputs "beta" 0
  let I := numberInput inputs "I" 1
  let ao := numberInput inputs "ao" 0
  let W := numberInput inputs "W" 0
  .ok [("Vb (kN)", C * beta * I * ao * W)]

/-- Year 1984 branch (lines 277-302): `Vb = K * C * beta * I * ao * W`; the I
field defaults to 1.0. -/
def calc1984 (inputs : InputSet) : Except CalcError ResultSet :=
  let K := numberInput inputs "K" 0
  let C := numberInput inputs "C" 0
  let beta := numberInput inputs "beta" 0
  let I := numberInput inputs "I" 1
  let ao := numberInput inputs "ao" 0
  let W := numberInput inputs "W" 0
  .ok [("Vb (kN)", K * C * beta * I * ao * W)]

/-- Shared 2002/2016 branch (lines 304-326): `Vb = (Z / 2.0) * (I / R) * Sa_g * W`;
the I and R fields default to 1.0. -/
def calc2002or2016 (inputs : InputSet) : Except CalcError ResultSet :=
  let Z := numberInput inputs "Z" 0
  let I := numberInput inputs "I" 1
  let R := numberInput inputs "R" 1
  let Sa_g := numberInput inputs "Sa/g" 0
  let W := numberInput inputs "W" 0
  match pyDiv Z 2 with
  | .error e => .error e
  | .ok t1 =>
    match pyDiv I R with
    | .error e => .error e
    | .ok t2 => .ok [("Vb (kN)", t1 * t2 * Sa_g * W)]

/-- Year 2025 branch (lines 328-359): `VBD_H = (Z * I * A_NH / R) * W` and
`VBD_V = (Z * I * A_NV) * W`; the I and R fields default to 1.0. -/
def calc2025 (inputs : InputSet) : Except CalcError ResultSet :=
  let Z := numberInput inputs "Z" 0
  let I := numberInput inputs "I" 1
  let R := numberInput inputs "R" 1
  let A_NH := numberInput inputs "A_NH" 0
  let A_NV := numberInput inputs "A_NV" 0
  let W := numberInput inputs "W" 0
  match pyDiv (Z * I * A_NH) R with
  | .error e => .error e
  | .ok q => .ok [("VBD,H (kN)", q * W), ("VBD,V (kN)", Z * I * A_NV * W)]

/-- The supported code years offered by the year radio button (line 183). -/
def supportedYears : List ℕ := [1962, 1966, 1970, 1975, 1984, 2002, 2016, 2025]

/-- Dispatch of the Calculate step over the year branch chain (lines 199-359).
The radio button only offers the eight supported years; for any other year no
branch runs and the result mapping stays empty. -/
def calculate (year : ℕ) (inputs : InputSet) : Except CalcError ResultSet :=
  if year = 1962 then calc1962 inputs
  else if year = 1966 then calc1966 inputs
  else if year = 1970 then calc1970 inputs
  else if year = 1975 then calc1975 inputs
  else if year = 1984 then calc1984 inputs
  else if year = 2002 ∨ year = 2016 then calc2002or2016 inputs
  else if year = 2025 then calc2025 inputs
  else .ok []

/-- The storey-wise list of lines 383-384:
`storey_list = range(1, storeys+1)` paired with
`shear = [(i / storeys) * total_shear for i in storey_list]`. -/
def distributionShear (totalShear : ℚ) (storeys : ℕ) : List (ℕ × ℚ) :=
  (List.range storeys).map (fun k => (k + 1, (((k : ℚ) + 1) / (storeys : ℚ)) * totalShear))

/-- Models `list(st.session_state["numeric_result"].values())[0]` (line 382):
the first value of the result mapping, when it has one. -/
def firstResultValue (res : ResultSet) : Option ℚ :=
  (res.map Prod.snd).head?

/-- The Generate Distribution Graph handler (lines 381-384): takes the first
value of the result mapping as the total shear and builds the storey list.
The handler is only reachable when the result mapping is non-empty. -/
def generateDistribution (res : ResultSet) (storeys : ℕ) : Option (List (ℕ × ℚ)) :=
  (firstResultValue res).map (fun t => distributionShear t storeys)

/-- C6: for every input set, the 2002 and the 2016 evaluation produce
identical result sets: both years dispatch to the same shared branch. -/
theorem calculate_2002_eq_2016 (inputs : InputSet) :
    calculate 2002 inputs = calculate 2016 inputs := rfl

/-- C4 counterexample: evaluating 1962 with an empty input set (both `ah`
and `W` absent) does not fail with a missing-input error: the fields keep
their declared default 0.0 and a result `F = 0` is produced. -/
theorem calculate_1962_empty_ok :
    calculate 1962 [] = Except.ok [("F (kN)", 0)] := by
  simp [calculate, calc1962, numberInput, List.lookup]

/-- C4 (amended): no branch can fail on a missing input, because every
`st.number_input` field carries a declared default (1.0 for I and R where
those appear, 0.0 otherwise).  Evaluating any year with the empty input set
silently substitutes those defaults and succeeds, yielding zero results. -/
theorem calculate_empty_inputs_defaults :
    calculate 1962 [] = Except.ok [("F (kN)", 0)]
  ∧ calculate 1966 [] = Except.ok [("Vb (kN)", 0)]
  ∧ calculate 1970 [] = Except.ok [("Vb (kN)", 0)]
  ∧ calculate 1975 [] = Except.ok [("Vb (kN)", 0)]
  ∧ calculate 1984 [] = Except.ok [("Vb (kN)", 0)]
  ∧ calculate 2002 [] = Except.ok [("Vb (kN)", 0)]
  ∧ calculate 2016 [] = Except.ok [("Vb (kN)", 0)]
  ∧ calculate 2025 [] = Except.ok [("VBD,H (kN)", 0), ("VBD,V (kN)", 0)] := by
  refine ⟨?_, ?_, ?_, ?_, ?_, ?_, ?_, ?_⟩ <;>
    simp [calculate, calc1962, calc1966, calc1970, calc1975, calc1984,
      calc2002or2016, calc2025, numberInput, List.lookup, pyDiv]

/-- C2 counterexample: with R = 0 the 2002 evaluation does NOT return an
infinite or NaN result: `I / R` raises `ZeroDivisionError` and no result set
is produced at all. -/
theorem calculate_2002_R_zero_error :
    calculate 2002 [("R", 0)] = Except.error CalcError.zeroDivision := by
  simp [calculate, calc2002or2016, numberInput, List.lookup, pyDiv]

/-- C2 (amended): for years 2002, 2016 and 2025, whenever the R field holds
exactly 0, the division raises `ZeroDivisionError` and the evaluation fails
instead of returning a numeric result. -/
theorem calculate_R_zero_raises (inputs : InputSet)
    (hR : numberInput inputs "R" 1 = 0) :
    calculate 2002 inputs = Except.error CalcError.zeroDivision
  ∧ calculate 2016 inputs = Except.error CalcError.zeroDivision
  ∧ calculate 2025 inputs = Except.error CalcError.zeroDivision := by
  refine ⟨?_, ?_, ?_⟩ <;>
    simp [calculate, calc2002or2016, calc2025, pyDiv, hR]

/-- C2 witness: concrete application at the input set `{R: 0}`. -/
theorem calculate_R_zero_raises_witness :
    calculate 2025 [("R", 0)] = Except.error CalcError.zeroDivision :=
  (calculate_R_zero_raises [("R", 0)] (by simp [numberInput, List.lookup])).2.2

/-- The 2002/2016 worked example input set of the spec:
Z = 0.16, I = 1.5, R = 5, Sa/g = 2.5, W = 1000. -/
def inputs2002Example : InputSet :=
  [("Z", 16/100), ("I", 3/2), ("R", 5), ("Sa/g", 5/2), ("W", 1000)]

/-- C3 counterexample: on the spec's worked example the 2002 evaluation does
not return 120: `(0.16/2) * (1.5/5) * 2.5 * 1000 = 60`. -/
theorem calculate_2002_example_not_120 :
    calculate 2002 inputs2002Example ≠ Except.ok [("Vb (kN)", 120)] := by
  intro h
  have h60 : calculate 2002 inputs2002Example = Except.ok [("Vb (kN)", 60)] := by
    simp [calculate, calc2002or2016, inputs2002Example, numberInput, List.lookup, pyDiv]
    norm_num
  rw [h60] at h
  simp at h

/-- C3 (amended): evaluating year 2002 on {Z: 0.16, I: 1.5, R: 5, Sa/g: 2.5,
W: 1000} returns exactly {"Vb (kN)": 60}, per the code's formula
`(Z / 2.0) * (I / R) * Sa_g * W`. -/
theorem calculate_2002_example_60 :
    calculate 2002 inputs2002Example = Except.ok [("Vb (kN)", 60)] := by
  simp [calculate, calc2002or2016, inputs2002Example, numberInput, List.lookup, pyDiv]
  norm_num

/-- C7 counterexample: with every input zero and W = 1, the 2002 evaluation
does not yield a zero result: R = 0 makes `I / R` raise `ZeroDivisionError`. -/
theorem calculate_2002_all_zero_error :
    calculate 2002 [("Z", 0), ("I", 0), ("R", 0), ("Sa/g", 0), ("W", 1)]
      = Except.error CalcError.zeroDivision := by
  simp [calculate, calc2002or2016, numberInput, List.lookup, pyDiv]

/-- C7 (amended): with every input zero except the weight W > 0 — and except
the R field, which must stay nonzero for the three dividing years since R = 0
raises `ZeroDivisionError` instead — every year's result entries are all 0. -/
theorem calculate_zero_inputs_zero_results (W R : ℚ) (hW : 0 < W) (hR : R ≠ 0) :
    calculate 1962 [("ah", 0), ("W", W)] = Except.ok [("F (kN)", 0)]
  ∧ calculate 1966 [("C", 0), ("ah", 0), ("W", W)] = Except.ok [("Vb (kN)", 0)]
  ∧ calculate 1970 [("C", 0), ("ah", 0), ("beta", 0), ("W", W)] = Except.ok [("Vb (kN)", 0)]
  ∧ calculate 1975 [("C", 0), ("beta", 0), ("I", 0), ("ao", 0), ("W", W)]
      = Except.ok [("Vb (kN)", 0)]
  ∧ calculate 1984 [("K", 0), ("C", 0), ("beta", 0), ("I", 0), ("ao", 0), ("W", W)]
      = Except.ok [("Vb (kN)", 0)]
  ∧ calculate 2002 [("Z", 0), ("I", 0), ("R", R), ("Sa/g", 0), ("W", W)]
      = Except.ok [("Vb (kN)", 0)]
  ∧ calculate 2016 [("Z", 0), ("I", 0), ("R", R), ("Sa/g", 0), ("W", W)]
      = Except.ok [("Vb (kN)", 0)]
  ∧ calculate 2025 [("Z", 0), ("I", 0), ("R", R), ("A_NH", 0), ("A_NV", 0), ("W", W)]
      = Except.ok [("VBD,H (kN)", 0), ("VBD,V (kN)", 0)] := by
  refine ⟨?_, ?_, ?_, ?_, ?_, ?_, ?_, ?_⟩ <;>
    simp [calculate, calc1962, calc1966, calc1970, calc1975, calc1984,
      calc2002or2016, calc2025, numberInput, List.lookup, pyDiv, hR]

/-- C7 witness: concrete application at W = 1, R = 1 for the 2002 branch. -/
theorem calculate_zero_inputs_zero_results_witness :
    calculate 2002 [("Z", 0), ("I", 0), ("R", 1), ("Sa/g", 0), ("W", 1)]
      = Except.ok [("Vb (kN)", 0)] :=
  (calculate_zero_inputs_zero_results 1 1 (by norm_num) (by norm_num)).2.2.2.2.2.1

/-- C1: each year's Calculate step returns exactly the closed-form product of
the spec's formula table, over all input values (with a nonzero R field for
the three years whose formula divides by R, since the quotient is undefined
and the code raises at R = 0). -/
theorem calculate_closed_forms (inputs : InputSet)
    (hR : numberInput inputs "R" 1 ≠ 0) :
    calculate 1962 inputs
      = Except.ok [("F (kN)", numberInput inputs "ah" 0 * numberInput inputs "W" 0)]
  ∧ calculate 1966 inputs
      = Except.ok [("Vb (kN)",
          numberInput inputs "C" 0 * numberInput inputs "ah" 0 * numberInput inputs "W" 0)]
  ∧ calculate 1970 inputs
      = Except.ok [("Vb (kN)",
          numberInput inputs "C" 0 * numberInput inputs "ah" 0 * numberInput inputs "beta" 0
            * numberInput inputs "W" 0)]
  ∧ calculate 1975 inputs
      = Except.ok [("Vb (kN)",
          numberInput inputs "C" 0 * numberInput inputs "beta" 0 * numberInput inputs "I" 1
            * numberInput inputs "ao" 0 * numberInput inputs "W" 0)]
  ∧ calculate 1984 inputs
      = Except.ok [("Vb (kN)",
          numberInput inputs "K" 0 * numberInput inputs "C" 0 * numberInput inputs "beta" 0
            * numberInput inputs "I" 1 * numberInput inputs "ao" 0
            * numberInput inputs "W" 0)]
  ∧ calculate 2002 inputs
      = Except.ok [("Vb (kN)",
          numberInput inputs "Z" 0 / 2 * (numberInput inputs "I" 1 / numberInput inputs "R" 1)
            * numberInput inputs "Sa/g" 0 * numberInput inputs "W" 0)]
  ∧ calculate 2016 inputs
      = Except.ok [("Vb (kN)",
          numberInput inputs "Z" 0 / 2 * (numberInput inputs "I" 1 / numberInput inputs "R" 1)
            * numberInput inputs "Sa/g" 0 * numberInput inputs "W" 0)]
  ∧ calculate 2025 inputs
      = Except.ok [("VBD,H (kN)",
          numberInput inputs "Z" 0 * numberInput inputs "I" 1 * numberInput inputs "A_NH" 0
            / numberInput inputs "R" 1 * numberInput inputs "W" 0),
         ("VBD,V (kN)",
          numberInput inputs "Z" 0 * numberInput inputs "I" 1 * numberInput inputs "A_NV" 0
            * numberInput inputs "W" 0)] := by
  refine ⟨rfl, rfl, rfl, rfl, rfl, ?_, ?_, ?_⟩ <;>
    simp [calculate, calc2002or2016, calc2025, pyDiv, hR]

/-- C1 witness: the 1962 closed form at the empty input set, whose R field
default 1 discharges the nonzero-R hypothesis. -/
theorem calculate_closed_forms_witness :
    calculate 1962 []
      = Except.ok [("F (kN)", numberInput [] "ah" 0 * numberInput [] "W" 0)] :=
  (calculate_closed_forms [] (by simp [numberInput, List.lookup])).1

/-- C5: for storeyCount ≥ 1 the distribution is an ordered record of exactly
storeyCount pairs whose entry at 0-based position i is storey i+1 (1-indexed)
with share ((i+1) / storeyCount) × totalShear. -/
theorem distribution_entries (totalShear : ℚ) (storeys : ℕ) (hs : 1 ≤ storeys) :
    (distributionShear totalShear storeys).length = storeys
  ∧ ∀ i, i < storeys →
      (distributionShear totalShear storeys)[i]?
        = some (i + 1, (((i : ℚ) + 1) / (storeys : ℚ)) * totalShear) := by
  constructor
  · simp [distributionShear]
  · intro i hi
    simp [distributionShear, List.getElem?_map, List.getElem?_range, hi]

/-- C5 witness: the worked distribution at totalShear = 100 over 4 storeys
has length 4 and third entry (3, 75). -/
theorem distribution_entries_witness :
    (distributionShear 100 4).length = 4
  ∧ (distributionShear 100 4)[2]? = some (2 + 1, (((2 : ℕ) : ℚ) + 1) / ((4 : ℕ) : ℚ) * 100) :=
  ⟨(distribution_entries 100 4 (by norm_num)).1,
   (distribution_entries 100 4 (by norm_num)).2 2 (by norm_num)⟩

lemma distributionShear_head (t : ℚ) (m : ℕ) :
    (distributionShear t (m + 1)).head? = some (1, t / ((m + 1 : ℕ) : ℚ)) := by
  rw [distributionShear, List.range_succ_eq_map, List.map_cons, List.head?_cons]
  norm_num [inv_mul_eq_div]

lemma distributionShear_getLast (t : ℚ) (m : ℕ) :
    (distributionShear t (m + 1)).getLast? = some (m + 1, t) := by
  have hne : ((m : ℚ) + 1) ≠ 0 := by positivity
  rw [distributionShear, List.range_succ, List.map_append, List.map_singleton,
    List.getLast?_concat]
  push_cast
  rw [div_self hne, one_mul]

lemma distributionShear_chain (t : ℚ) (ht : 0 < t) (n : ℕ) :
    List.Chain' (fun a b => a.2 < b.2) (distributionShear t n) := by
  rw [distributionShear, List.chain'_map]
  cases n with
  | zero => simp
  | succ m =>
    rw [List.chain'_range_succ]
    intro i hi
    have hn : (0 : ℚ) < ((m + 1 : ℕ) : ℚ) := by positivity
    dsimp only
    gcongr
    norm_num

/-- C8 counterexample: with totalShear = 0 and two storeys both shares are 0,
so the storey-wise shares are not strictly increasing. -/
theorem distribution_zero_not_strictly_increasing :
    ¬ List.Chain' (fun a b => a.2 < b.2) (distributionShear 0 2) := by
  simp [distributionShear, List.range_succ]

/-- C8 (amended): for totalShear > 0 and storeyCount ≥ 1 the shares strictly
increase, ramping from totalShear/storeyCount at storey 1 to totalShear at
the top storey (for totalShear = 0 the ramp is constant, so the hypothesis
totalShear > 0 is necessary). -/
theorem distribution_strictly_increasing (totalShear : ℚ) (storeys : ℕ)
    (hs : 1 ≤ storeys) (ht : 0 < totalShear) :
    List.Chain' (fun a b => a.2 < b.2) (distributionShear totalShear storeys)
  ∧ (distributionShear totalShear storeys).head? = some (1, totalShear / (storeys : ℚ))
  ∧ (distributionShear totalShear storeys).getLast? = some (storeys, totalShear) := by
  obtain ⟨m, rfl⟩ : ∃ m, storeys = m + 1 := ⟨storeys - 1, by omega⟩
  exact ⟨distributionShear_chain totalShear ht (m + 1),
    distributionShear_head totalShear m, distributionShear_getLast totalShear m⟩

/-- C8 witness: concrete application at totalShear = 100 over 4 storeys. -/
theorem distribution_strictly_increasing_witness :
    (distributionShear 100 4).head? = some (1, (100 : ℚ) / ((4 : ℕ) : ℚ)) :=
  (distribution_strictly_increasing 100 4 (by norm_num) (by norm_num)).2.1

/-- C9: the last entry of the distribution always equals totalShear exactly,
and the worked example distribute(100, 4) is [(1,25),(2,50),(3,75),(4,100)]. -/
theorem distribution_last_exact :
    (∀ (totalShear : ℚ) (storeys : ℕ), 1 ≤ storeys →
      (distributionShear totalShear storeys).getLast? = some (storeys, totalShear))
  ∧ distributionShear 100 4 = [(1, 25), (2, 50), (3, 75), (4, 100)] := by
  constructor
  · intro t n hn
    obtain ⟨m, rfl⟩ : ∃ m, n = m + 1 := ⟨n - 1, by omega⟩
    exact distributionShear_getLast t m
  · norm_num [distributionShear, List.range_succ]

/-- C9 witness: concrete application of the universal part at totalShear = 7
over 3 storeys. -/
theorem distribution_last_exact_witness :
    (distributionShear 7 3).getLast? = some (3, 7) :=
  distribution_last_exact.1 7 3 (by norm_num)

lemma numberInput_cons_self (n : String) (v d : ℚ) (inputs : InputSet) :
    numberInput ((n, v) :: inputs) n d = v := by
  simp [numberInput, List.lookup]

lemma numberInput_cons_ne (n k : String) (h : (k == n) = false) (v d : ℚ)
    (inputs : InputSet) :
    numberInput ((n, v) :: inputs) k d = numberInput inputs k d := by
  simp [numberInput, List.lookup, h]

lemma calc2025_ok (inputs : InputSet) (hR : numberInput inputs "R" 1 ≠ 0) :
    calculate 2025 inputs = Except.ok
      [("VBD,H (kN)",
        numberInput inputs "Z" 0 * numberInput inputs "I" 1 * numberInput inputs "A_NH" 0
          / numberInput inputs "R" 1 * numberInput inputs "W" 0),
       ("VBD,V (kN)",
        numberInput inputs "Z" 0 * numberInput inputs "I" 1 * numberInput inputs "A_NV" 0
          * numberInput inputs "W" 0)] := by
  simp [calculate, calc2025, pyDiv, hR]

/-- C10: the Generate Distribution handler always takes its total shear from
the FIRST entry of the result mapping; in the 2025 case (with nonzero R, so
the evaluation succeeds) that first entry is the horizontal demand VBD,H,
and changing the A_NV field alone never changes the distribution. -/
theorem distribution_from_first_result (inputs : InputSet) (storeys : ℕ)
    (hR : numberInput inputs "R" 1 ≠ 0) :
    (∀ (label : String) (t : ℚ) (rest : ResultSet),
        generateDistribution ((label, t) :: rest) storeys
          = some (distributionShear t storeys))
  ∧ (∀ res, calculate 2025 inputs = Except.ok res →
        generateDistribution res storeys
          = some (distributionShear
              (numberInput inputs "Z" 0 * numberInput inputs "I" 1
                * numberInput inputs "A_NH" 0 / numberInput inputs "R" 1
                * numberInput inputs "W" 0) storeys))
  ∧ (∀ (v w : ℚ) (res₁ res₂ : ResultSet),
        calculate 2025 (("A_NV", v) :: inputs) = Except.ok res₁ →
        calculate 2025 (("A_NV", w) :: inputs) = Except.ok res₂ →
        generateDistribution res₁ storeys = generateDistribution res₂ storeys) := by
  have hpass : ∀ (k : String), (k == "A_NV") = false →
      ∀ (x d : ℚ), numberInput (("A_NV", x) :: inputs) k d = numberInput inputs k d := by
    intro k hk x d
    exact numberInput_cons_ne "A_NV" k hk x d inputs
  refine ⟨?_, ?_, ?_⟩
  · intro label t rest
    simp [generateDistribution, firstResultValue]
  · intro res hres
    rw [calc2025_ok inputs hR] at hres
    cases hres
    simp [generateDistribution, firstResultValue]
  · intro v w res₁ res₂ h₁ h₂
    have hR2 : ∀ x : ℚ, numberInput (("A_NV", x) :: inputs) "R" 1 ≠ 0 := by
      intro x
      rw [hpass "R" rfl x 1]
      exact hR
    rw [calc2025_ok _ (hR2 v)] at h₁
    rw [calc2025_ok _ (hR2 w)] at h₂
    cases h₁
    cases h₂
    simp only [generateDistribution, firstResultValue, List.map_cons, List.head?_cons,
      Option.map_some]
    rw [hpass "Z" rfl v 0, hpass "I" rfl v 1, hpass "A_NH" rfl v 0, hpass "R" rfl v 1,
      hpass "W" rfl v 0, hpass "Z" rfl w 0, hpass "I" rfl w 1, hpass "A_NH" rfl w 0,
      hpass "R" rfl w 1, hpass "W" rfl w 0]

/-- C10 witness: at the empty input set (R defaults to 1) and two storeys,
the 2025 result distributes from its first entry VBD,H. -/
theorem distribution_from_first_result_witness :
    generateDistribution [("VBD,H (kN)", 0), ("VBD,V (kN)", 0)] 2
      = some (distributionShear
          (numberInput [] "Z" 0 * numberInput [] "I" 1 * numberInput [] "A_NH" 0
            / numberInput [] "R" 1 * numberInput [] "W" 0) 2) :=
  (distribution_from_first_result [] 2 (by simp [numberInput, List.lookup])).2.1
    [("VBD,H (kN)", 0), ("VBD,V (kN)", 0)]
    (by simp [calculate, calc2025, numberInput, List.lookup, pyDiv])
